import Mathlib

/-!
Verification of the hpecli self-update subsystem and two CLI commands.

The `update` package (spec §§2-8) is embedded from the specification:
its Go source is not part of the material under review, only its test
suite is, so each definition below that models it carries a doc comment
`Modelled from the spec: ...`.  The `oneview` logout command
(`runLogout`) and the `greenlake` get command (`runGlGet`) are embedded
from their Go source files; their external collaborators (HTTP clients,
token store) are modelled as explicit oracle parameters.
-/

namespace Update

/-- Error taxonomy of the update subsystem (spec §7): source/transport
failure, unusable manifest (missing version or malformed document),
invalid semantic-version syntax, and the missing-local-version
precondition failure. -/
inductive UpdateError where
  | sourceError
  | manifestMissingVersion
  | manifestMalformed
  | versionInvalidFormat
  | missingLocalVersion
deriving DecidableEq, Repr

/-- Result of a version check (spec §3): `UpdateAvailable` flag, the
remote version string, and the optional message / URL / public key /
checksum copied from the manifest.  The public key is a byte sequence. -/
structure CheckResponse where
  UpdateAvailable : Bool := false
  RemoteVersion : String := ""
  Message : String := ""
  URL : String := ""
  PublicKey : List Nat := []
  CheckSum : String := ""
deriving DecidableEq, Repr

/-- The zero-valued `CheckResponse`: flag false, strings empty, key empty. -/
def zeroResponse : CheckResponse := {}

/-- Bytes of a string, one per character (the manifest's textual public
key is copied into the byte-sequence field verbatim, spec §4.2). -/
def strBytes (s : String) : List Nat := s.toList.map Char.toNat

/-- Remote manifest (spec §3): required `version`, optional `message`,
`url`, `publickey`, `checksum`; an absent optional field is the empty
string. -/
structure Manifest where
  version : String
  message : String := ""
  url : String := ""
  publickey : String := ""
  checksum : String := ""
deriving DecidableEq, Repr

/-- A fetched document, after structural decoding: either it cannot be
decoded at all, or it is a key/value object. -/
inductive RawDoc where
  | malformed
  | obj (fields : List (String × String))
deriving DecidableEq, Repr

/-- Value of a key in a decoded key/value object; absent keys decode to
the empty string (Go's zero value after JSON unmarshalling). -/
def lookupField (fields : List (String × String)) (k : String) : String :=
  match fields.find? (fun p => p.1 = k) with
  | some p => p.2
  | none => ""

/-- Modelled from the spec: `ManifestParser.parse` (spec §4.2), whose Go
source is absent from the reviewed material.  Fails with
`ManifestError(Malformed)` when the bytes cannot be decoded, with
`ManifestError(MissingVersion)` when the `version` key is absent or
empty; unknown keys are ignored; optional fields default to empty. -/
def parseManifest : RawDoc → Except UpdateError Manifest
  | .malformed => .error .manifestMalformed
  | .obj fields =>
    let v := lookupField fields "version"
    if v = "" then .error .manifestMissingVersion
    else .ok { version := v
             , message := lookupField fields "message"
             , url := lookupField fields "url"
             , publickey := lookupField fields "publickey"
             , checksum := lookupField fields "checksum" }

/-- A parsed semantic version: the MAJOR.MINOR.PATCH numeric triple
(spec §4.3). -/
structure SemVer where
  major : Nat
  minor : Nat
  patch : Nat
deriving DecidableEq, Repr

/-- Modelled from the spec: `VersionComparator.compare` (spec §4.3),
whose Go source is absent from the reviewed material.  Standard
semantic-version precedence on the numeric triple: major first, then
minor, then patch. -/
def compareSemVer (a b : SemVer) : Ordering :=
  if a.major < b.major then .lt
  else if b.major < a.major then .gt
  else if a.minor < b.minor then .lt
  else if b.minor < a.minor then .gt
  else if a.patch < b.patch then .lt
  else if b.patch < a.patch then .gt
  else .eq

/-- Split a character list on `'.'`; always returns one segment more
than the number of dots (so `[]` maps to `[[]]`). -/
def splitOnDot : List Char → List (List Char)
  | [] => [[]]
  | c :: rest =>
    if c = '.' then [] :: splitOnDot rest
    else
      match splitOnDot rest with
      | [] => [[c]]
      | h :: t => (c :: h) :: t

/-- Parse a nonempty list of decimal digits as a natural number;
anything else is `none`. -/
def parseNatDigits (cs : List Char) : Option Nat :=
  match cs with
  | [] => none
  | _ =>
    if cs.all Char.isDigit then
      some (cs.foldl (fun n c => n * 10 + (c.toNat - 48)) 0)
    else none

/-- Modelled from the spec: semantic-version parsing used by the
comparator (spec §4.3), whose Go source is absent from the reviewed
material.  A version string is MAJOR.MINOR.PATCH with numeric fields;
anything else — in particular the empty string — fails with
`VersionError(InvalidFormat)`. -/
def parseSemVer (s : String) : Except UpdateError SemVer :=
  match splitOnDot s.toList with
  | [a, b, c] =>
    match parseNatDigits a, parseNatDigits b, parseNatDigits c with
    | some ma, some mi, some pa => .ok ⟨ma, mi, pa⟩
    | _, _, _ => .error .versionInvalidFormat
  | _ => .error .versionInvalidFormat

/-- Outcome of `VersionSource.fetch` (spec §4.1): a transport failure,
or the fetched document after structural decoding. -/
inductive FetchResult where
  | fetchError
  | fetched (doc : RawDoc)
deriving DecidableEq, Repr

/-- Modelled from the spec: the detailed entry point `checkUpdate`
(spec §4.5), whose Go source is absent from the reviewed material.
`skip` is the value of `UpdatePolicy.shouldSkip()` (the environment
toggle), `source` the fetch outcome of the supplied version source.
Returns the check result paired with the number of network fetches
performed.  Steps: short-circuit on skip; precondition on the local
version; fetch; parse; compare; populate the full response. -/
def checkUpdateRun (skip : Bool) (source : FetchResult) (localVersion : String) :
    Except UpdateError CheckResponse × Nat :=
  if skip then (.ok zeroResponse, 0)
  else if localVersion = "" then (.error .missingLocalVersion, 0)
  else
    match source with
    | .fetchError => (.error .sourceError, 1)
    | .fetched doc =>
      match parseManifest doc with
      | .error e => (.error e, 1)
      | .ok m =>
        match parseSemVer localVersion, parseSemVer m.version with
        | .error e, _ => (.error e, 1)
        | .ok _, .error e => (.error e, 1)
        | .ok lv, .ok rv =>
          (.ok { UpdateAvailable := decide (compareSemVer lv rv = .lt)
               , RemoteVersion := m.version
               , Message := m.message
               , URL := m.url
               , PublicKey := strBytes m.publickey
               , CheckSum := m.checksum }, 1)

/-- The value/error part of `checkUpdate` (spec §4.5), dropping the
fetch counter. -/
def checkUpdate (skip : Bool) (source : FetchResult) (localVersion : String) :
    Except UpdateError CheckResponse :=
  (checkUpdateRun skip source localVersion).1

/-- Modelled from the spec: the convenience entry point
`isUpdateAvailable` (spec §4.5), whose Go source is absent from the
reviewed material.  It runs the detailed path (on the network source and
the compiled-in local version, both passed here explicitly) and swallows
every error, returning `false`. -/
def isUpdateAvailable (skip : Bool) (source : FetchResult) (localVersion : String) : Bool :=
  match checkUpdate skip source localVersion with
  | .error _ => false
  | .ok r => r.UpdateAvailable

/-- The `CheckResponse` structure a caller can observe: the returned
structure on success, and the zero-valued structure when the call fails
(Go returns a nil pointer there; the caller holds no populated
response). -/
def observedResponse (skip : Bool) (source : FetchResult) (localVersion : String) :
    CheckResponse :=
  match checkUpdate skip source localVersion with
  | .ok r => r
  | .error _ => zeroResponse

end Update

namespace OneView

/-- Error cases of the oneview logout command, matching the three
`return`-with-error sites of `runLogout`. -/
inductive LogoutErr where
  | retrieveFailed
  | sessionLogoutFailed
  | deleteFailed
deriving DecidableEq, Repr

/-- Oracles for `runLogout`'s external collaborators: the host/token
resolution (`hostToLogout`, backed by the token store), the remote
session logout (`ovc.SessionLogout`), and the local cleanup
(`deleteSavedHostData`).  `none`/`false` means the call fails. -/
structure LogoutEnv where
  retrieve : Option (String × String)
  sessionLogoutOk : Bool
  deleteOk : Bool
deriving DecidableEq, Repr

/-- Embedding of `runLogout` (oneview logout command).  Returns the
command's error outcome paired with whether `deleteSavedHostData` was
invoked.  Control flow from the source: resolve host/token (failure
returns an error at once); call `SessionLogout` (failure returns that
error); only then delete the saved host data (failure returns that
error); otherwise succeed. -/
def runLogout (env : LogoutEnv) : Option LogoutErr × Bool :=
  match env.retrieve with
  | none => (some .retrieveFailed, false)
  | some _ =>
    if env.sessionLogoutOk then
      if env.deleteOk then (none, true) else (some .deleteFailed, true)
    else (some .sessionLogoutFailed, false)

end OneView

namespace GreenLake

/-- A GreenLake user record, as far as `runGlGet` prints it. -/
structure GLUser where
  displayName : String
  userName : String
  active : Bool
deriving DecidableEq, Repr

/-- Error cases of the greenlake get command, matching its two
`return`-with-error sites. -/
inductive GlGetErr where
  | getUsersFailed
  | unmarshalFailed
deriving DecidableEq, Repr

/-- Oracles for `runGlGet`'s external collaborators: the `GetUsers`
HTTP call (raw body or failure), the JSON unmarshalling of that body,
and the `--json` flag. -/
structure GlEnv where
  getUsers : Except Unit String
  unmarshal : String → Except Unit (List GLUser)
  jsonFlag : Bool

/-- The line `runGlGet` prints for one user:
`fmt.Printf("Name: %s : Email: %s Active: %t\n", ...)`. -/
def userLine (u : GLUser) : String :=
  "Name: " ++ u.displayName ++ " : Email: " ++ u.userName
    ++ " Active: " ++ (if u.active then "true" else "false")

/-- Embedding of `runGlGet` (greenlake get command).  Returns the
command's error outcome paired with the lines printed to stdout.
Control flow from the source: on path `"users"`, fetch the users body
(failure returns that error), print it raw under `--json`, otherwise
unmarshal (failure returns that error) and print one line per user; on
any other path, print `Unknown path:  <path>` (Go's `fmt.Println` with
two operands inserts a space between them) and return nil. -/
def runGlGet (path : String) (env : GlEnv) : Option GlGetErr × List String :=
  if path = "users" then
    match env.getUsers with
    | .error _ => (some .getUsersFailed, [])
    | .ok body =>
      if env.jsonFlag then (none, [body])
      else
        match env.unmarshal body with
        | .error _ => (some .unmarshalFailed, [])
        | .ok users => (none, users.map userLine)
  else (none, ["Unknown path:  " ++ path])

end GreenLake

namespace Update

/-- The empty string is not a valid semantic version. -/
lemma parseSemVer_empty : parseSemVer "" = .error .versionInvalidFormat := rfl

/-- A string that parses as a semantic version is nonempty. -/
lemma parseSemVer_ok_ne_empty {s : String} {v : SemVer} (h : parseSemVer s = .ok v) :
    s ≠ "" := by
  intro hs
  rw [hs, parseSemVer_empty] at h
  exact Except.noConfusion h

/-- Characterization of a fully successful detailed check: with the
skip toggle unset, a nonempty local version, a manifest that parses and
two valid semantic versions, `checkUpdateRun` performs one fetch and
returns the fully populated response. -/
lemma checkUpdateRun_ok {doc : RawDoc} {m : Manifest} {lv : String} {a b : SemVer}
    (hm : parseManifest doc = .ok m) (ha : parseSemVer lv = .ok a)
    (hb : parseSemVer m.version = .ok b) :
    checkUpdateRun false (.fetched doc) lv =
      (.ok { UpdateAvailable := decide (compareSemVer a b = .lt)
           , RemoteVersion := m.version
           , Message := m.message
           , URL := m.url
           , PublicKey := strBytes m.publickey
           , CheckSum := m.checksum }, 1) := by
  have hlv : lv ≠ "" := parseSemVer_ok_ne_empty ha
  simp [checkUpdateRun, hlv, hm, ha, hb]

end Update

namespace Update

/-- `compareSemVer` yields `lt` exactly on lexicographically smaller
triples. -/
lemma compareSemVer_lt_iff {a b : SemVer} :
    compareSemVer a b = .lt ↔
      a.major < b.major ∨ a.major = b.major ∧
        (a.minor < b.minor ∨ a.minor = b.minor ∧ a.patch < b.patch) := by
  unfold compareSemVer
  split_ifs <;> simp <;> omega

/-- `compareSemVer` yields `gt` exactly on lexicographically larger
triples. -/
lemma compareSemVer_gt_iff {a b : SemVer} :
    compareSemVer a b = .gt ↔
      b.major < a.major ∨ b.major = a.major ∧
        (b.minor < a.minor ∨ b.minor = a.minor ∧ b.patch < a.patch) := by
  unfold compareSemVer
  split_ifs <;> simp <;> omega

/-- `compareSemVer` yields `eq` exactly on equal triples. -/
lemma compareSemVer_eq_iff {a b : SemVer} :
    compareSemVer a b = .eq ↔
      a.major = b.major ∧ a.minor = b.minor ∧ a.patch = b.patch := by
  unfold compareSemVer
  split_ifs <;> simp <;> omega

/-- C8: for all semantic versions `a`, `b`, `c`, the comparison is a
strict weak ordering: `compare a b = Less` iff `compare b a = Greater`,
`compare a b = Equal` iff `compare b a = Equal`, and `Less` is
transitive. -/
theorem compareSemVer_strict_weak_order (a b c : SemVer) :
    (compareSemVer a b = .lt ↔ compareSemVer b a = .gt) ∧
    (compareSemVer a b = .eq ↔ compareSemVer b a = .eq) ∧
    (compareSemVer a b = .lt → compareSemVer b c = .lt → compareSemVer a c = .lt) := by
  refine ⟨?_, ?_, ?_⟩
  · rw [compareSemVer_lt_iff, compareSemVer_gt_iff]
  · rw [compareSemVer_eq_iff, compareSemVer_eq_iff]
    omega
  · simp only [compareSemVer_lt_iff]
    omega

/-- Witness for C8 at concrete versions: transitivity applied to
`0.0.1 < 0.1.0 < 1.2.3`. -/
theorem compareSemVer_strict_weak_order_witness :
    compareSemVer ⟨0, 0, 1⟩ ⟨1, 2, 3⟩ = .lt :=
  (compareSemVer_strict_weak_order ⟨0, 0, 1⟩ ⟨0, 1, 0⟩ ⟨1, 2, 3⟩).2.2 (by decide) (by decide)

end Update

namespace Update

/-- C1: the convenience entry point returns `false` on every outcome of
the detailed path that is not a successful check reporting an update: it
returns `false` when the skip toggle is set, and `false` whenever the
detailed path returns an error (fetch failure, parse failure, invalid or
missing version); being a total boolean function, it never propagates an
error to its caller. -/
theorem isUpdateAvailable_fail_open (skip : Bool) (source : FetchResult) (lv : String) :
    (skip = true → isUpdateAvailable skip source lv = false) ∧
    ∀ e, checkUpdate skip source lv = .error e → isUpdateAvailable skip source lv = false := by
  constructor
  · intro h
    subst h
    simp [isUpdateAvailable, checkUpdate, checkUpdateRun, zeroResponse]
  · intro e h
    simp [isUpdateAvailable, h]

/-- Witness for C1: a fetch failure (the invalid-URL scenario) makes the
detailed path error out and the convenience entry point report `false`. -/
theorem isUpdateAvailable_fail_open_witness :
    checkUpdate false .fetchError "1.0.0" = .error .sourceError ∧
    isUpdateAvailable false .fetchError "1.0.0" = false :=
  ⟨rfl, (isUpdateAvailable_fail_open false .fetchError "1.0.0").2 .sourceError rfl⟩

/-- C2: with the skip toggle unset, `checkUpdate` on an empty local
version fails with the missing-local-version precondition error for
every source and manifest content; the empty version is never compared. -/
theorem checkUpdate_empty_local_version (source : FetchResult) :
    checkUpdate false source "" = .error .missingLocalVersion := rfl

/-- C3: on a successful detailed check, `UpdateAvailable` is true iff
the comparison of the local and remote semantic versions yields `lt`
(remote strictly greater). -/
theorem checkUpdate_updateAvailable_iff_less (doc : RawDoc) (m : Manifest) (lv : String)
    (a b : SemVer) (r : CheckResponse)
    (hm : parseManifest doc = .ok m) (ha : parseSemVer lv = .ok a)
    (hb : parseSemVer m.version = .ok b)
    (hr : checkUpdate false (.fetched doc) lv = .ok r) :
    r.UpdateAvailable = true ↔ compareSemVer a b = .lt := by
  unfold checkUpdate at hr
  rw [checkUpdateRun_ok hm ha hb] at hr
  simp at hr
  subst hr
  simp

/-- Witness for C3 at Scenario A: local `0.0.1`, remote `0.1.0`. -/
theorem checkUpdate_updateAvailable_iff_less_witness :
    (({ UpdateAvailable := true, RemoteVersion := "0.1.0" } : CheckResponse).UpdateAvailable
        = true)
      ↔ compareSemVer ⟨0, 0, 1⟩ ⟨0, 1, 0⟩ = .lt :=
  checkUpdate_updateAvailable_iff_less (.obj [("version", "0.1.0")])
    { version := "0.1.0" } "0.0.1" ⟨0, 0, 1⟩ ⟨0, 1, 0⟩ _ rfl rfl rfl rfl

/-- C4: with the skip toggle set, `checkUpdate` returns the zero-valued
response with no error and performs zero network fetches, for every
source and local version. -/
theorem checkUpdate_skip_zero_response (source : FetchResult) (lv : String) :
    checkUpdateRun true source lv = (.ok zeroResponse, 0) := rfl

/-- C5: whenever a check invocation is skipped or fails, the response
the caller can observe is exactly the zero-valued structure. -/
theorem observedResponse_zero_on_skip_or_failure (skip : Bool) (source : FetchResult)
    (lv : String)
    (h : skip = true ∨ ∃ e, checkUpdate skip source lv = .error e) :
    observedResponse skip source lv = zeroResponse := by
  rcases h with h | ⟨e, he⟩
  · subst h
    simp [observedResponse, checkUpdate, checkUpdateRun]
  · simp [observedResponse, he]

/-- Witness for C5: the skipped check observes the zero response. -/
theorem observedResponse_zero_on_skip_or_failure_witness :
    observedResponse true .fetchError "" = zeroResponse :=
  observedResponse_zero_on_skip_or_failure true .fetchError "" (Or.inl rfl)

/-- C6: a fetched manifest whose `version` key is absent or empty makes
the detailed path fail with the missing-version manifest error, for
every nonempty local version. -/
theorem checkUpdate_missing_version_error (fields : List (String × String)) (lv : String)
    (hlv : lv ≠ "") (hv : lookupField fields "version" = "") :
    checkUpdate false (.fetched (.obj fields)) lv = .error .manifestMissingVersion := by
  simp [checkUpdate, checkUpdateRun, parseManifest, hv, hlv]

/-- Witness for C6 at the test's failing manifest
`{"message":"test will fail"}` with local version `0.0.1`. -/
theorem checkUpdate_missing_version_error_witness :
    checkUpdate false (.fetched (.obj [("message", "test will fail")])) "0.0.1"
      = .error .manifestMissingVersion :=
  checkUpdate_missing_version_error _ _ (by decide) rfl

/-- C7: on a successful detailed check, every optional manifest field is
copied verbatim into the response — string-for-string for message, URL
and checksum, byte-for-byte for the public key — and `RemoteVersion`
equals the manifest's version string. -/
theorem checkUpdate_fields_verbatim (doc : RawDoc) (m : Manifest) (lv : String)
    (a b : SemVer) (r : CheckResponse)
    (hm : parseManifest doc = .ok m) (ha : parseSemVer lv = .ok a)
    (hb : parseSemVer m.version = .ok b)
    (hr : checkUpdate false (.fetched doc) lv = .ok r) :
    r.RemoteVersion = m.version ∧ r.Message = m.message ∧ r.URL = m.url ∧
      r.PublicKey = strBytes m.publickey ∧ r.CheckSum = m.checksum := by
  unfold checkUpdate at hr
  rw [checkUpdateRun_ok hm ha hb] at hr
  simp at hr
  subst hr
  exact ⟨rfl, rfl, rfl, rfl, rfl⟩

/-- Witness for C7 at Scenario C: the all-fields manifest with local
version `0.1.2`. -/
theorem checkUpdate_fields_verbatim_witness :
    (({ UpdateAvailable := false, RemoteVersion := "0.1.1", Message := "update available",
        URL := "https://foo.bar/update", PublicKey := strBytes "00001111",
        CheckSum := "120EA8A25E5D487BF68B5F7096440019" } : CheckResponse).RemoteVersion
        = "0.1.1")
      ∧ (({ UpdateAvailable := false, RemoteVersion := "0.1.1",
            Message := "update available", URL := "https://foo.bar/update",
            PublicKey := strBytes "00001111",
            CheckSum := "120EA8A25E5D487BF68B5F7096440019" } : CheckResponse).Message
          = "update available")
      ∧ (({ UpdateAvailable := false, RemoteVersion := "0.1.1",
            Message := "update available", URL := "https://foo.bar/update",
            PublicKey := strBytes "00001111",
            CheckSum := "120EA8A25E5D487BF68B5F7096440019" } : CheckResponse).URL
          = "https://foo.bar/update")
      ∧ (({ UpdateAvailable := false, RemoteVersion := "0.1.1",
            Message := "update available", URL := "https://foo.bar/update",
            PublicKey := strBytes "00001111",
            CheckSum := "120EA8A25E5D487BF68B5F7096440019" } : CheckResponse).PublicKey
          = strBytes "00001111")
      ∧ (({ UpdateAvailable := false, RemoteVersion := "0.1.1",
            Message := "update available", URL := "https://foo.bar/update",
            PublicKey := strBytes "00001111",
            CheckSum := "120EA8A25E5D487BF68B5F7096440019" } : CheckResponse).CheckSum
          = "120EA8A25E5D487BF68B5F7096440019") :=
  checkUpdate_fields_verbatim
    (.obj [("version", "0.1.1"), ("message", "update available"),
           ("url", "https://foo.bar/update"), ("publickey", "00001111"),
           ("checksum", "120EA8A25E5D487BF68B5F7096440019")])
    { version := "0.1.1", message := "update available", url := "https://foo.bar/update",
      publickey := "00001111", checksum := "120EA8A25E5D487BF68B5F7096440019" }
    "0.1.2" ⟨0, 1, 2⟩ ⟨0, 1, 1⟩ _ rfl rfl rfl rfl

end Update

namespace OneView

/-- C9: in the OneView logout command, when the host/token resolution
succeeded but the remote `SessionLogout` call fails, `runLogout` returns
that error without deleting the locally saved host data; and the saved
host data is deleted only when `SessionLogout` succeeded. -/
theorem runLogout_delete_only_after_session_logout (env : LogoutEnv) :
    (∀ p, env.retrieve = some p → env.sessionLogoutOk = false →
      runLogout env = (some .sessionLogoutFailed, false)) ∧
    ((runLogout env).2 = true → env.sessionLogoutOk = true) := by
  constructor
  · intro p hp hs
    simp [runLogout, hp, hs]
  · intro h2
    by_contra hs
    rw [Bool.not_eq_true] at hs
    rcases hr : env.retrieve with _ | p
    · simp [runLogout, hr] at h2
    · simp [runLogout, hr, hs] at h2

/-- Witness for C9: a failing remote logout on a resolved host returns
the session-logout error and leaves the saved host data in place. -/
theorem runLogout_delete_only_after_session_logout_witness :
    runLogout ⟨some ("https://host", "token"), false, true⟩
      = (some .sessionLogoutFailed, false) :=
  (runLogout_delete_only_after_session_logout
    ⟨some ("https://host", "token"), false, true⟩).1 ("https://host", "token") rfl rfl

end OneView

namespace GreenLake

/-- C10: in the GreenLake get command, every path other than `"users"`
makes `runGlGet` print an `Unknown path` message and return nil (no
error), regardless of the collaborators' behaviour. -/
theorem runGlGet_unknown_path_returns_nil (path : String) (env : GlEnv)
    (h : path ≠ "users") :
    runGlGet path env = (none, ["Unknown path:  " ++ path]) := by
  simp [runGlGet, h]

/-- Witness for C10 at the unrecognized path `"servers"`. -/
theorem runGlGet_unknown_path_returns_nil_witness :
    runGlGet "servers"
        { getUsers := .ok "", unmarshal := fun _ => .ok [], jsonFlag := false }
      = (none, ["Unknown path:  servers"]) :=
  runGlGet_unknown_path_returns_nil "servers"
    { getUsers := .ok "", unmarshal := fun _ => .ok [], jsonFlag := false } (by decide)

end GreenLake
